import Mathlib

/-!
Shallow embedding of the telegram-car-bot mileage/fuel logger (src/main.py)
and verification of its specification claims.

Modelling conventions:
* Python numbers are modelled exactly: `int` as `ℤ`, `float` as `ℚ`.
  All float values arising in this program are small finite decimals, for
  which rational arithmetic agrees with IEEE double arithmetic at every
  rounding step performed by the program.
* Python strings are modelled as `List Char` (Unicode scalar values), so the
  keyword matching over Ukrainian text is exact.  `str.lower` is modelled by
  `pyLowerChar`, which lowercases ASCII and the Cyrillic block; every Unicode
  character whose Python lower case contains one of the keyword letters the
  program matches lies in the modelled ranges.
* `str.isdigit` is modelled as ASCII digits (the only inputs the program is
  specified to accept).
* Each telegram handler becomes a pure function from (user id, input text or
  callback data, per-user store, sheet cache) to a `HandlerOut` recording the
  conversation-state return value, the resulting store, the sheet operations
  performed, and which reply was sent.  Handlers that can raise an uncaught
  exception (indexing / float conversion on sheet cells) return `Option`,
  `none` standing for the crash.
-/

namespace CarBot

/-! ### Python string primitives -/

/-- `s.take p.length = p`, i.e. `p` is an initial segment of `s`. -/
def listTakeEq (p s : List Char) : Bool := decide (s.take p.length = p)

/-- Python's `p in s` substring test (for non-empty `p`). -/
def subWord (p : List Char) : List Char → Bool
  | [] => p.isEmpty
  | c :: t => listTakeEq p (c :: t) || subWord p t

/-- Fuel-indexed worker for `splitOnL`; fuel is the length of the string, so
the fallback branch is never reached. -/
def splitOnFuel (sep : List Char) : Nat → List Char → List (List Char)
  | _, [] => [[]]
  | 0, s => [s]
  | fuel + 1, c :: t =>
    if sep ≠ [] ∧ listTakeEq sep (c :: t) then
      [] :: splitOnFuel sep fuel (List.drop (sep.length - 1) t)
    else
      match splitOnFuel sep fuel t with
      | [] => [[c]]
      | x :: xs => (c :: x) :: xs

/-- Python `s.split(sep)` for a non-empty separator. -/
def splitOnL (sep s : List Char) : List (List Char) := splitOnFuel sep s.length s

/-- Worker for `wsSplit` with an accumulator of the current word (reversed). -/
def wsSplitGo : List Char → List Char → List (List Char)
  | [], acc => if acc.isEmpty then [] else [acc.reverse]
  | c :: t, acc =>
    if c.isWhitespace then
      (if acc.isEmpty then wsSplitGo t [] else acc.reverse :: wsSplitGo t [])
    else wsSplitGo t (c :: acc)

/-- Python `s.split()` (split on whitespace, dropping empty words). -/
def wsSplit (s : List Char) : List (List Char) := wsSplitGo s []

def dropWs (s : List Char) : List Char := s.dropWhile Char.isWhitespace

/-- Python `s.strip()`. -/
def trimL (s : List Char) : List Char := dropWs ((dropWs s.reverse).reverse)

def allDigits (cs : List Char) : Bool := cs.all Char.isDigit

/-- Numeric value of a string of ASCII digits. -/
def digitsVal (cs : List Char) : ℕ := cs.foldl (fun a c => a * 10 + (c.toNat - 48)) 0

/-- Python `s.replace(",", ".")` (all occurrences). -/
def replaceCommas (s : List Char) : List Char := s.map (fun c => if c = ',' then '.' else c)

/-- Python `s.replace(".", "", 1)` (first occurrence only). -/
def removeFirstDot : List Char → List Char
  | [] => []
  | c :: t => if c = '.' then t else c :: removeFirstDot t

/-- Python `s.isdigit()` (restricted to ASCII digits). -/
def pyIsDigit (s : List Char) : Bool := !s.isEmpty && allDigits s

/-- Python `str.lower()` on one character, covering ASCII and the Cyrillic
block: the capitals U+0400–U+040F map to U+0450–U+045F (this includes the
Ukrainian І → і, Ї → ї, Є → є), U+0410–U+042F map to U+0430–U+044F, and the
paired capitals U+0460–U+0481, U+048A–U+04BF and U+04D0–U+052F (even code
points, including Ґ U+0490 → ґ U+0491) map to the following odd code point.
Every Unicode character whose lower case contains one of the keyword letters
matched by the program lies in these ranges; characters of other scripts are
left unchanged. -/
def pyLowerChar (c : Char) : Char :=
  let n := c.toNat
  if 65 ≤ n ∧ n ≤ 90 then Char.ofNat (n + 32)
  else if 0x400 ≤ n ∧ n ≤ 0x40F then Char.ofNat (n + 0x50)
  else if 0x410 ≤ n ∧ n ≤ 0x42F then Char.ofNat (n + 0x20)
  else if (0x460 ≤ n ∧ n ≤ 0x481 ∨ 0x48A ≤ n ∧ n ≤ 0x4BF ∨ 0x4D0 ≤ n ∧ n ≤ 0x52F)
      ∧ n % 2 = 0 then Char.ofNat (n + 1)
  else c

/-- Python `s.lower()`. -/
def lowerL (s : List Char) : List Char := s.map pyLowerChar

/-! ### Python `float` literals

`float(s)` is split into a string-level phase producing the sign and digit
strings (`pyFloatRep`) and a numeric phase (`DecRep.toQ`); their composition
`pyFloat` is the model of a successful `float(s)` call, `none` modelling a
`ValueError`.  Exponent forms, `inf`/`nan` and non-ASCII digits are not used
by this program's inputs and are not modelled. -/

/-- String-level representation of a parsed decimal literal:
sign flag (`true` = negative), whole-part digits, fractional-part digits. -/
structure DecRep where
  neg : Bool
  whole : List Char
  frac : List Char
deriving DecidableEq, Repr

/-- Magnitude part of a decimal literal: digits with at most one dot and at
least one digit. -/
def decRepMag (cs : List Char) : Option (List Char × List Char) :=
  match splitOnL ['.'] cs with
  | [w] => if ¬ w.isEmpty ∧ allDigits w then some (w, []) else none
  | [w, f] =>
    if (¬ w.isEmpty ∨ ¬ f.isEmpty) ∧ allDigits w ∧ allDigits f then some (w, f) else none
  | _ => none

/-- String-level phase of Python `float(s)`. -/
def pyFloatRep (s : List Char) : Option DecRep :=
  match trimL s with
  | '-' :: t => (decRepMag t).map (fun p => ⟨true, p.1, p.2⟩)
  | '+' :: t => (decRepMag t).map (fun p => ⟨false, p.1, p.2⟩)
  | t => (decRepMag t).map (fun p => ⟨false, p.1, p.2⟩)

/-- Numeric value of a parsed decimal literal. -/
def DecRep.toQ (r : DecRep) : ℚ :=
  (if r.neg then -1 else 1) *
    ((digitsVal r.whole : ℚ) + (digitsVal r.frac : ℚ) / 10 ^ r.frac.length)

/-- Python `float(s)`, `none` modelling `ValueError`. -/
def pyFloat (s : List Char) : Option ℚ := (pyFloatRep s).map DecRep.toQ

/-! ### Python numeric primitives -/

/-- Python `int(x)` on a float: truncation toward zero. -/
def pyTrunc (q : ℚ) : ℤ := if 0 ≤ q then ⌊q⌋ else ⌈q⌉

/-- Python `round(x)`: round half to even, to an integer. -/
def pyRoundInt (q : ℚ) : ℤ :=
  if q - ⌊q⌋ < 1 / 2 then ⌊q⌋
  else if 1 / 2 < q - ⌊q⌋ then ⌊q⌋ + 1
  else if 2 ∣ ⌊q⌋ then ⌊q⌋ else ⌊q⌋ + 1

/-- Python `round(x, n)`: round half to even, keeping `n` decimal digits. -/
def pyRound (q : ℚ) (n : ℕ) : ℚ := (pyRoundInt (q * 10 ^ n) : ℚ) / 10 ^ n

/-! ### Data model -/

/-- `OWNER_ID` from src/main.py. -/
def OWNER_ID : ℤ := 270380991

/-- The distribution-derived fields added to the per-user dict by
`handle_distribution` (src/main.py `data.update`). -/
structure DistData where
  city_km : ℚ
  city_exact : ℚ
  city_rounded : ℤ
  district_km : ℚ
  district_exact : ℚ
  district_rounded : ℤ
  highway_km : ℚ
  highway_exact : ℚ
  highway_rounded : ℤ
  total_exact : ℚ
  total_rounded : ℤ
deriving DecidableEq, Repr

/-- A per-user entry of `user_data_store`: `odometer` and `diff` are set by
`handle_odometer`; `dist` is `some` once `handle_distribution` has added the
distribution fields. -/
structure UserData where
  odometer : ℤ
  diff : ℤ
  dist : Option DistData
deriving DecidableEq, Repr

/-- `user_data_store`, a dict keyed by user id, as an association list. -/
abbrev Store := List (ℤ × UserData)

/-- Python `store.get(k)` / `store.get(k, {})` with emptiness test. -/
def storeGet (s : Store) (k : ℤ) : Option UserData :=
  (s.find? (fun p => p.1 == k)).map (fun p => p.2)

/-- Python `store.pop(k, None)` (the resulting store). -/
def storePop (s : Store) (k : ℤ) : Store := s.filter (fun p => p.1 != k)

/-- Python `store[k] = v`. -/
def storeSet (s : Store) (k : ℤ) (v : UserData) : Store := (k, v) :: storePop s k

/-- One row of the cached sheet (`sheet_cache`): a list of cell strings. -/
abbrev Row := List String

/-- Return value of a handler: one of the `ConversationHandler` states,
`ConversationHandler.END`, or Python `None`. -/
inductive ConvRet where
  | odometerW
  | distributionW
  | confirmW
  | ended
  | noRet
deriving DecidableEq, Repr

/-- A cell value written to the sheet.  `int n` models `str` of an integer,
`dec q` models `str` of a float with `'.'` replaced by `','`. -/
inductive Cell where
  | str (s : String)
  | int (n : ℤ)
  | dec (q : ℚ)
deriving DecidableEq, Repr

/-- A side effect on the spreadsheet. -/
inductive Effect where
  | appendRow (r : List Cell)
  | deleteRowAt (idx : ℕ)
  | formatRowRange (idx : ℕ) (cols : ℕ)
deriving DecidableEq, Repr

/-- Which reply the handler sent (message texts abstracted to constructors;
the report reply carries the rows it displays). -/
inductive Reply where
  | denied
  | emptyTable
  | deleted
  | reportText (rows : List Row)
  | statsText
  | resetDone
  | helpText
  | promptOdometer
  | badNumber
  | notBigger
  | promptDistribution
  | lostData
  | badFormat
  | sumMismatch
  | confirmSummary
  | cancelled
  | notFound
  | saved
  | saveError
  | noReply
deriving DecidableEq, Repr

/-- Result of one handler invocation. -/
structure HandlerOut where
  ret : ConvRet
  store : Store
  effects : List Effect
  reply : Reply
deriving DecidableEq, Repr

/-! ### The fuel computation (`calc` inside `handle_distribution`;
`calc` is a Lean keyword, hence the name `calcFn`) -/

/-- `calc(litres_per_100km, km)` from src/main.py:
`exact = round(km * litres_per_100km / 100, 4); rounded = round(exact)`. -/
def calcFn (litres_per_100km km : ℚ) : ℚ × ℤ :=
  let exact := pyRound (km * litres_per_100km / 100) 4
  (exact, pyRoundInt exact)

/-! ### Distribution parsing (`handle_distribution`, the keyword loop) -/

/-- `text.split(word)[1].strip().split()[0]` fed to `float`, all failures
(`IndexError`, `ValueError`) collapsing to `none`. -/
def extractAfter (text w : List Char) : Option DecRep :=
  match (splitOnL w text).get? 1 with
  | none => none
  | some seg =>
    match (wsSplit (trimL seg)).get? 0 with
    | none => none
    | some tok => pyFloatRep tok

/-- The `for word in text.split()` loop of `handle_distribution`: keyword
substring match with `elif` priority city → district → highway; an exception
anywhere aborts the whole parse. -/
def parseDistLoop (text : List Char) :
    List (List Char) → DecRep × DecRep × DecRep → Option (DecRep × DecRep × DecRep)
  | [], acc => some acc
  | w :: ws, (c, d, h) =>
    if subWord "міст".data w then
      match extractAfter text w with
      | none => none
      | some v => parseDistLoop text ws (v, d, h)
    else if subWord "район".data w then
      match extractAfter text w with
      | none => none
      | some v => parseDistLoop text ws (c, v, h)
    else if subWord "трас".data w then
      match extractAfter text w with
      | none => none
      | some v => parseDistLoop text ws (c, d, v)
    else parseDistLoop text ws (c, d, h)

/-- The literal `'0'` representation of the Python initialisation
`city_km = district_km = highway_km = 0`. -/
def zeroRep : DecRep := ⟨false, ['0'], []⟩

/-- String-level result of the distribution parse. -/
def parseDistRep (text : List Char) : Option (DecRep × DecRep × DecRep) :=
  parseDistLoop text (wsSplit text) (zeroRep, zeroRep, zeroRep)

/-- Numeric result of the distribution parse of the lower-cased message. -/
def parseDist (raw : String) : Option (ℚ × ℚ × ℚ) :=
  (parseDistRep (lowerL raw.data)).map (fun t => (t.1.toQ, t.2.1.toQ, t.2.2.toQ))

/-! ### Handlers -/

/-- `int(float(sheet_cache[-1][1]))` before truncation: the parsed value of
the odometer cell of the last cached row; `none` models an uncaught
`IndexError`/`ValueError`. -/
def lastOdoCell (cache : List Row) : Option ℚ :=
  (cache.getLast?.bind (fun r => r.get? 1)).bind (fun s => pyFloat s.data)

/-- `handle_odometer` from src/main.py. -/
def handleOdometer (uid : ℤ) (raw : String) (store : Store) (cache : List Row) :
    Option HandlerOut :=
  if uid ≠ OWNER_ID then some ⟨.ended, store, [], .denied⟩
  else
    let text := replaceCommas (trimL raw.data)
    if pyIsDigit (removeFirstDot text) = false then some ⟨.odometerW, store, [], .badNumber⟩
    else
      match pyFloat text with
      | none => none
      | some q =>
        let odometer := pyTrunc q
        match (if 2 ≤ cache.length then lastOdoCell cache else some 0) with
        | none => none
        | some p =>
          let prev_odo := pyTrunc p
          let diff := odometer - prev_odo
          if diff ≤ 0 then some ⟨.odometerW, store, [], .notBigger⟩
          else
            some ⟨.distributionW, storeSet store uid ⟨odometer, diff, none⟩, [],
              .promptDistribution⟩

/-- `handle_distribution` from src/main.py. -/
def handleDistribution (uid : ℤ) (raw : String) (store : Store) : HandlerOut :=
  if uid ≠ OWNER_ID then ⟨.ended, store, [], .denied⟩
  else
    match storeGet store uid with
    | none => ⟨.ended, store, [], .lostData⟩
    | some data =>
      match parseDist raw with
      | none => ⟨.distributionW, store, [], .badFormat⟩
      | some (city_km, district_km, highway_km) =>
        let total_entered := city_km + district_km + highway_km
        if 1 < |total_entered - (data.diff : ℚ)| then ⟨.distributionW, store, [], .sumMismatch⟩
        else
          let ce := calcFn 11.66 city_km
          let de := calcFn 11.17 district_km
          let he := calcFn 10.19 highway_km
          let total_exact := pyRound (ce.1 + de.1 + he.1) 4
          let total_rounded := pyRoundInt total_exact
          let dd : DistData :=
            ⟨city_km, ce.1, ce.2, district_km, de.1, de.2, highway_km, he.1, he.2,
              total_exact, total_rounded⟩
          ⟨.confirmW, storeSet store uid { data with dist := some dd }, [], .confirmSummary⟩

/-- The distribution fields as read back by `data.get(key, 0)` in
`handle_confirmation` (default 0 when the key is absent). -/
def distOf (d : UserData) : DistData := d.dist.getD ⟨0, 0, 0, 0, 0, 0, 0, 0, 0, 0, 0⟩

/-- The 14-cell `row` list built by `handle_confirmation`. -/
def buildRow (today : String) (d : UserData) : List Cell :=
  let dd := distOf d
  [ .str today,
    .int d.odometer,
    .int d.diff,
    .int (pyTrunc dd.city_km),
    .dec dd.city_exact,
    .int dd.city_rounded,
    .int (pyTrunc dd.district_km),
    .dec dd.district_exact,
    .int dd.district_rounded,
    .int (pyTrunc dd.highway_km),
    .dec dd.highway_exact,
    .int dd.highway_rounded,
    .dec dd.total_exact,
    .int dd.total_rounded ]

/-- `handle_confirmation` from src/main.py.  `appendOk` selects whether the
`sheet.append_row` call succeeds or raises (the `except` branch). -/
def handleConfirmation (uid : ℤ) (cb today : String) (store : Store) (cache : List Row)
    (appendOk : Bool) : HandlerOut :=
  if uid ≠ OWNER_ID then ⟨.ended, store, [], .denied⟩
  else if cb = "confirm_no" ∨ cb = "cancel" then ⟨.ended, storePop store uid, [], .cancelled⟩
  else
    match storeGet store uid with
    | none => ⟨.ended, storePop store uid, [], .notFound⟩
    | some data =>
      let st := storePop store uid
      let row := buildRow today data
      if appendOk then
        ⟨.ended, st, [.appendRow row, .formatRowRange cache.length 14], .saved⟩
      else
        ⟨.ended, st, [], .saveError⟩

/-- `handle_button` from src/main.py.  The statistics aggregation text is
abstracted to the `statsText` constructor (its body is wrapped in
`try/except`, so its per-row indexing cannot crash the handler, and no claim
concerns its content); the report branch indexes `row[0]`…`row[4]` of every
displayed row outside any `try`, so a displayed row with fewer than 5 cells
raises `IndexError` before any reply is sent (`none`); sheet calls are
modelled on their success path except where a claim needs otherwise. -/
def handleButton (uid : ℤ) (cb : String) (store : Store) (cache : List Row) :
    Option HandlerOut :=
  if uid ≠ OWNER_ID then some ⟨.noRet, store, [], .denied⟩
  else if cb = "add" then
    (if 2 ≤ cache.length then
      match lastOdoCell cache with
      | none => none
      | some _ => some ⟨.odometerW, store, [], .promptOdometer⟩
    else some ⟨.odometerW, store, [], .promptOdometer⟩)
  else if cb = "delete" then
    (if cache ≠ [] then some ⟨.noRet, store, [.deleteRowAt cache.length], .deleted⟩
    else some ⟨.noRet, store, [], .emptyTable⟩)
  else if cb = "report" ∨ cb = "last" then
    (if cache = [] then some ⟨.noRet, store, [], .emptyTable⟩
    else
      let rows := cache.drop (cache.length - 5)
      if rows.all (fun r => decide (5 ≤ r.length)) then
        some ⟨.noRet, store, [], .reportText rows⟩
      else none)
  else if cb = "stats" then
    (if cache = [] then some ⟨.noRet, store, [], .emptyTable⟩
    else some ⟨.noRet, store, [], .statsText⟩)
  else if cb = "reset" then some ⟨.noRet, storePop store uid, [], .resetDone⟩
  else if cb = "help" then some ⟨.noRet, store, [], .helpText⟩
  else if cb = "retry_odometer" then
    (if 2 ≤ cache.length then
      match lastOdoCell cache with
      | none => none
      | some _ => some ⟨.odometerW, store, [], .promptOdometer⟩
    else some ⟨.odometerW, store, [], .promptOdometer⟩)
  else if cb = "retry_distribution" then
    match storeGet store uid with
    | none => some ⟨.ended, store, [], .lostData⟩
    | some _ =>
      if 2 ≤ cache.length then
        match lastOdoCell cache with
        | none => none
        | some _ => some ⟨.distributionW, store, [], .promptDistribution⟩
      else some ⟨.distributionW, store, [], .promptDistribution⟩
  else some ⟨.noRet, store, [], .noReply⟩

/-! ### Spec-side definition for the monthly-report claim -/

/-- Modelled from the spec: "Monthly report filters rows whose date column
starts with the current year-month string and sums the total-liters column."
No such filtering/summing operation exists in src/main.py; this definition
follows the spec's words for comparison with the code's report action. -/
def monthRowsSpec (ym : String) (cache : List Row) : List Row :=
  cache.filter (fun r => listTakeEq ym.data (r.headD "").data)

/-- Numeric value of a sheet cell (comma decimal separator tolerated),
defaulting to 0; used only by the spec-side monthly report. -/
def cellNum (s : String) : ℚ := (pyFloat (replaceCommas s.data)).getD 0

/-- Modelled from the spec: the monthly total of the total-liters column
(column index 12) over the month-filtered rows. -/
def monthTotalSpec (ym : String) (cache : List Row) : ℚ :=
  ((monthRowsSpec ym cache).map (fun r => cellNum (r.getD 12 ""))).sum

/-! ### Concrete scenario data used by witnesses and counterexamples -/

/-- Store holding the session produced by entering odometer 53200 over a
previous odometer of 53000 (diff = 200). -/
def store200 : Store := [(OWNER_ID, ⟨53200, 200, none⟩)]

/-- A header row as written by the deployed sheet. -/
def headerRow : Row := ["Дата", "Одометр", "Пробіг"]

/-- A previously saved data row (odometer 53000). -/
def prevRow : Row := ["01.01.2025", "53000", "150"]

/-- A two-row cache: header plus one data row. -/
def cache2 : List Row := [headerRow, prevRow]

/-- A saved data row dated January 2024. -/
def rowJan (odo : String) : Row :=
  ["05.01.2024", odo, "100", "40", "4,664", "5", "30", "3,351", "3", "30", "3,057", "3",
    "11,072", "11"]

/-- A six-row cache (header plus five January-2024 data rows). -/
def cache6 : List Row :=
  [headerRow, rowJan "53100", rowJan "53200", rowJan "53300", rowJan "53400", rowJan "53500"]

/-- The distribution fields computed for city=100, district=60, highway=40 at
rates 11.66 / 11.17 / 10.19. -/
def dd4 : DistData := ⟨100, 11.66, 12, 60, 6.702, 7, 40, 4.076, 4, 22.438, 22⟩

/-- A fully populated session for the example scenario. -/
def data4 : UserData := ⟨53200, 200, some dd4⟩

/-- Store holding the fully populated example session. -/
def store4 : Store := [(OWNER_ID, data4)]

/-- The city kilometers recorded in the store for user `k` after a handler
ran, if any. -/
def storedCityKm (out : HandlerOut) (k : ℤ) : Option ℚ :=
  (storeGet out.store k).map (fun u => (distOf u).city_km)

/-- The stored per-category kilometre triple for user `k` after a handler
ran, if any. -/
def storedKms (out : HandlerOut) (k : ℤ) : Option (ℚ × ℚ × ℚ) :=
  (storeGet out.store k).map
    (fun u => ((distOf u).city_km, (distOf u).district_km, (distOf u).highway_km))

/-- The distribution fields recorded in the store for user `k` after a
handler ran, if any. -/
def storedDist (out : HandlerOut) (k : ℤ) : Option DistData :=
  (storeGet out.store k).bind (fun u => u.dist)

/-- No word of the lower-cased message contains any of the three category
keywords. -/
def noKeyword (raw : String) : Bool :=
  (wsSplit (lowerL raw.data)).all
    (fun w => !subWord "міст".data w && !subWord "район".data w && !subWord "трас".data w)

/-! ### Store lemmas -/

theorem storeGet_storeSet (s : Store) (k : ℤ) (v : UserData) :
    storeGet (storeSet s k v) k = some v := by
  simp [storeGet, storeSet, List.find?]

theorem storeGet_storePop (s : Store) (k : ℤ) : storeGet (storePop s k) k = none := by
  induction s with
  | nil => rfl
  | cons p t ih =>
    by_cases hp : p.1 = k
    · simp only [storePop, List.filter_cons] at ih ⊢
      simp [hp, ih]
    · simp only [storePop, storeGet, List.filter_cons, List.find?] at ih ⊢
      simp [hp, ih]

/-! ### Concrete parse evaluations shared by several claims -/

theorem parse_100_60_41 : parseDist "місто 100 район 60 траса 41" = some (100, 60, 41) := by
  have hr : parseDistRep (lowerL "місто 100 район 60 траса 41".data) =
      some (⟨false, ['1', '0', '0'], []⟩, ⟨false, ['6', '0'], []⟩, ⟨false, ['4', '1'], []⟩) := by
    decide
  have h1 : digitsVal ['1', '0', '0'] = 100 := by decide
  have h2 : digitsVal ['6', '0'] = 60 := by decide
  have h3 : digitsVal ['4', '1'] = 41 := by decide
  have h4 : digitsVal [] = 0 := by decide
  simp [parseDist, hr, DecRep.toQ, h1, h2, h3, h4]

theorem parse_100_60_40 : parseDist "місто 100 район 60 траса 40" = some (100, 60, 40) := by
  have hr : parseDistRep (lowerL "місто 100 район 60 траса 40".data) =
      some (⟨false, ['1', '0', '0'], []⟩, ⟨false, ['6', '0'], []⟩, ⟨false, ['4', '0'], []⟩) := by
    decide
  have h1 : digitsVal ['1', '0', '0'] = 100 := by decide
  have h2 : digitsVal ['6', '0'] = 60 := by decide
  have h3 : digitsVal ['4', '0'] = 40 := by decide
  have h4 : digitsVal [] = 0 := by decide
  simp [parseDist, hr, DecRep.toQ, h1, h2, h3, h4]

/-- Sanity check of the `str.lower` model: an upper-case Cyrillic message is
lower-cased exactly as Python does, so its labeled values are parsed. -/
theorem parse_upper_cyrillic :
    parseDist "МІСТО 100 РАЙОН 60 ТРАСА 40" = some (100, 60, 40) := by
  have hl : lowerL "МІСТО 100 РАЙОН 60 ТРАСА 40".data =
      "місто 100 район 60 траса 40".data := by decide
  have hr : parseDistRep (lowerL "МІСТО 100 РАЙОН 60 ТРАСА 40".data) =
      some (⟨false, ['1', '0', '0'], []⟩, ⟨false, ['6', '0'], []⟩, ⟨false, ['4', '0'], []⟩) := by
    rw [hl]
    decide
  have h1 : digitsVal ['1', '0', '0'] = 100 := by decide
  have h2 : digitsVal ['6', '0'] = 60 := by decide
  have h3 : digitsVal ['4', '0'] = 40 := by decide
  have h4 : digitsVal [] = 0 := by decide
  simp [parseDist, hr, DecRep.toQ, h1, h2, h3, h4]

theorem parse_neg50 : parseDist "місто -50 район 150 траса 100" = some (-50, 150, 100) := by
  have hr : parseDistRep (lowerL "місто -50 район 150 траса 100".data) =
      some (⟨true, ['5', '0'], []⟩, ⟨false, ['1', '5', '0'], []⟩, ⟨false, ['1', '0', '0'], []⟩) := by
    decide
  have h1 : digitsVal ['5', '0'] = 50 := by decide
  have h2 : digitsVal ['1', '5', '0'] = 150 := by decide
  have h3 : digitsVal ['1', '0', '0'] = 100 := by decide
  have h4 : digitsVal [] = 0 := by decide
  simp [parseDist, hr, DecRep.toQ, h1, h2, h3, h4]

/-! ### C6: access guard -/

/-- C6: every interaction whose user id differs from `OWNER_ID` is rejected
with the fixed denial reply; the per-user store is untouched and no sheet
effect is produced, in each of the four handlers. -/
theorem C6_access_guard (uid : ℤ) (h : uid ≠ OWNER_ID) (cb raw cb2 today : String)
    (store : Store) (cache : List Row) (ok : Bool) :
    handleButton uid cb store cache = some ⟨.noRet, store, [], .denied⟩ ∧
    handleOdometer uid raw store cache = some ⟨.ended, store, [], .denied⟩ ∧
    handleDistribution uid raw store = ⟨.ended, store, [], .denied⟩ ∧
    handleConfirmation uid cb2 today store cache ok = ⟨.ended, store, [], .denied⟩ := by
  refine ⟨?_, ?_, ?_, ?_⟩ <;>
    simp [handleButton, handleOdometer, handleDistribution, handleConfirmation, h]

/-- Witness for C6 at user id 0. -/
theorem C6_witness :
    (0 : ℤ) ≠ OWNER_ID ∧
    handleButton 0 "delete" [] [headerRow] = some ⟨.noRet, [], [], .denied⟩ :=
  ⟨by decide, (C6_access_guard 0 (by decide) "delete" "" "" "" [] [headerRow] true).1⟩

/-! ### C7: delete guard -/

/-- C7 counterexample: on a one-row ledger (a header with no data row beyond
it) the delete action still deletes that row and reports success, contrary to
the claim that no deletion happens when no data row exists. -/
theorem C7_counterexample :
    handleButton OWNER_ID "delete" [] [headerRow] =
      some ⟨.noRet, [], [.deleteRowAt 1], .deleted⟩ := by
  decide

/-- C7 (amended): the delete action removes the last row whenever the cached
ledger is non-empty — including a header-only ledger — and only on a fully
empty ledger is it a no-op with the distinct empty-table reply. -/
theorem C7_amended (store : Store) (cache : List Row) :
    (cache ≠ [] →
      handleButton OWNER_ID "delete" store cache =
        some ⟨.noRet, store, [.deleteRowAt cache.length], .deleted⟩) ∧
    (cache = [] →
      handleButton OWNER_ID "delete" store cache = some ⟨.noRet, store, [], .emptyTable⟩) ∧
    Reply.emptyTable ≠ Reply.deleted := by
  refine ⟨fun h => ?_, fun h => ?_, by decide⟩ <;> simp [handleButton, h]

/-- Witness for C7 on a header-plus-data cache and on the empty cache. -/
theorem C7_witness :
    cache2 ≠ ([] : List Row) ∧
    handleButton OWNER_ID "delete" [] cache2 =
      some ⟨.noRet, [], [.deleteRowAt 2], .deleted⟩ :=
  ⟨by decide, (C7_amended [] cache2).1 (by decide)⟩

/-! ### C10: transient state dropped before the append -/

/-- C10: on confirm, the per-user entry is popped from the store before the
append is attempted, so the store after the handler is `storePop` of the
input store for either outcome of the append; on a persistence failure the
entry is not restored, no sheet effect occurs, and only the save-error reply
is sent. -/
theorem C10_state_discarded (store : Store) (today : String) (cache : List Row)
    (d : UserData) (h : storeGet store OWNER_ID = some d) :
    (∀ ok : Bool,
      (handleConfirmation OWNER_ID "confirm_yes" today store cache ok).store =
        storePop store OWNER_ID) ∧
    handleConfirmation OWNER_ID "confirm_yes" today store cache false =
      ⟨.ended, storePop store OWNER_ID, [], .saveError⟩ ∧
    storeGet
      (handleConfirmation OWNER_ID "confirm_yes" today store cache false).store OWNER_ID =
      none := by
  have hcb : ¬ (("confirm_yes" : String) = "confirm_no" ∨ ("confirm_yes" : String) = "cancel") := by
    decide
  refine ⟨fun ok => ?_, ?_, ?_⟩
  · cases ok <;> simp [handleConfirmation, hcb, h]
  · simp [handleConfirmation, hcb, h]
  · simp [handleConfirmation, hcb, h, storeGet_storePop]

/-- Witness for C10 on the concrete diff-200 session. -/
theorem C10_witness :
    storeGet store200 OWNER_ID = some ⟨53200, 200, none⟩ ∧
    handleConfirmation OWNER_ID "confirm_yes" "12.10.2025" store200 cache2 false =
      ⟨.ended, storePop store200 OWNER_ID, [], .saveError⟩ :=
  ⟨by decide,
    (C10_state_discarded store200 "12.10.2025" cache2 ⟨53200, 200, none⟩ (by decide)).2.1⟩

/-! ### C3: odometer monotonicity -/

/-- C3: with a ledger holding a data row beyond the header, a parsed odometer
whose truncated value does not exceed the previous row's truncated odometer
is rejected (re-prompt, state stays `WAITING_FOR_ODOMETER`, store untouched);
when accepted, the stored session is exactly
`{odometer := new, diff := new - previous}`. -/
theorem C3_odometer_monotonic (raw : String) (store : Store) (cache : List Row) (q p : ℚ)
    (hguard : pyIsDigit (removeFirstDot (replaceCommas (trimL raw.data))) = true)
    (hin : pyFloat (replaceCommas (trimL raw.data)) = some q)
    (hlen : 2 ≤ cache.length)
    (hcell : lastOdoCell cache = some p) :
    (pyTrunc q ≤ pyTrunc p →
      handleOdometer OWNER_ID raw store cache = some ⟨.odometerW, store, [], .notBigger⟩) ∧
    (pyTrunc p < pyTrunc q →
      handleOdometer OWNER_ID raw store cache =
        some ⟨.distributionW,
          storeSet store OWNER_ID ⟨pyTrunc q, pyTrunc q - pyTrunc p, none⟩, [],
          .promptDistribution⟩) := by
  constructor
  · intro hle
    have hd : pyTrunc q - pyTrunc p ≤ 0 := by omega
    simp [handleOdometer, hguard, hin, hlen, hcell, hd]
  · intro hlt
    have hd : ¬ pyTrunc q - pyTrunc p ≤ 0 := by omega
    simp [handleOdometer, hguard, hin, hlen, hcell, hd]

/-- Witness for C3: odometer 52999 against previous odometer 53000 is
rejected with a re-prompt. -/
theorem C3_witness :
    pyIsDigit (removeFirstDot (replaceCommas (trimL "52999".data))) = true ∧
    handleOdometer OWNER_ID "52999" [] cache2 = some ⟨.odometerW, [], [], .notBigger⟩ := by
  have hr : pyFloatRep (replaceCommas (trimL "52999".data)) =
      some ⟨false, ['5', '2', '9', '9', '9'], []⟩ := by decide
  have hv : digitsVal ['5', '2', '9', '9', '9'] = 52999 := by decide
  have hv0 : digitsVal [] = 0 := by decide
  have hin : pyFloat (replaceCommas (trimL "52999".data)) = some ((52999 : ℚ)) := by
    simp [pyFloat, hr, DecRep.toQ, hv, hv0]
  have hr2 : pyFloatRep "53000".data = some ⟨false, ['5', '3', '0', '0', '0'], []⟩ := by decide
  have hv2 : digitsVal ['5', '3', '0', '0', '0'] = 53000 := by decide
  have hcell : lastOdoCell cache2 = some ((53000 : ℚ)) := by
    simp [lastOdoCell, cache2, prevRow, headerRow, pyFloat, hr2, DecRep.toQ, hv2, hv0]
  have hle : pyTrunc ((52999 : ℚ)) ≤ pyTrunc ((53000 : ℚ)) := by norm_num [pyTrunc]
  exact ⟨by decide,
    (C3_odometer_monotonic "52999" [] cache2 52999 53000 (by decide) hin (by decide) hcell).1
      hle⟩

/-! ### C1: the sum check of the distribution step -/

/-- C1 counterexample: the triple city=100, district=60, highway=41 sums to
201 ≠ diff = 200 yet the input is accepted and the conversation moves to the
confirmation state, because the code tolerates a deviation of up to 1 km. -/
theorem C1_counterexample :
    parseDist "місто 100 район 60 траса 41" = some (100, 60, 41) ∧
    (100 + 60 + 41 : ℚ) ≠ ((200 : ℤ) : ℚ) ∧
    (handleDistribution OWNER_ID "місто 100 район 60 траса 41" store200).ret =
      ConvRet.confirmW := by
  have hs : storeGet store200 OWNER_ID = some ⟨53200, 200, none⟩ := by decide
  refine ⟨parse_100_60_41, by norm_num, ?_⟩
  norm_num [handleDistribution, hs, parse_100_60_41]

/-- C1 (amended): a parsed distribution is accepted (reaches the
confirmation state) iff its sum is within 1 km of the stored diff; when the
deviation exceeds 1 the input is rejected with the sum-mismatch reply and
the store is unchanged. -/
theorem C1_amended (raw : String) (store : Store) (data : UserData) (c d h : ℚ)
    (hs : storeGet store OWNER_ID = some data)
    (hp : parseDist raw = some (c, d, h)) :
    ((handleDistribution OWNER_ID raw store).ret = ConvRet.confirmW ↔
      |c + d + h - (data.diff : ℚ)| ≤ 1) ∧
    (1 < |c + d + h - (data.diff : ℚ)| →
      handleDistribution OWNER_ID raw store = ⟨.distributionW, store, [], .sumMismatch⟩) := by
  by_cases hc : 1 < |c + d + h - (data.diff : ℚ)|
  · have hn : ¬ |c + d + h - (data.diff : ℚ)| ≤ 1 := not_le.mpr hc
    constructor
    · simp [handleDistribution, hs, hp, hc, hn]
    · intro _
      simp [handleDistribution, hs, hp, hc]
  · have hle : |c + d + h - (data.diff : ℚ)| ≤ 1 := not_lt.mp hc
    constructor
    · simp [handleDistribution, hs, hp, hc, hle]
    · intro h'
      exact absurd h' hc

/-- Witness for C1 at the concrete tolerated input (sum 201, diff 200). -/
theorem C1_witness :
    storeGet store200 OWNER_ID = some ⟨53200, 200, none⟩ ∧
    ((handleDistribution OWNER_ID "місто 100 район 60 траса 41" store200).ret =
        ConvRet.confirmW ↔
      |(100 : ℚ) + 60 + 41 - (((200 : ℤ) : ℚ))| ≤ 1) :=
  ⟨by decide,
    (C1_amended "місто 100 район 60 траса 41" store200 ⟨53200, 200, none⟩ 100 60 41
      (by decide) parse_100_60_41).1⟩

/-! ### C5: bare-number distribution inputs -/

/-- If no word of the message contains a category keyword, the parse loop
returns its accumulator unchanged. -/
theorem parseDistLoop_no_keyword (text : List Char) (ws : List (List Char))
    (acc : DecRep × DecRep × DecRep)
    (hw : ∀ w ∈ ws, subWord "міст".data w = false ∧ subWord "район".data w = false ∧
      subWord "трас".data w = false) :
    parseDistLoop text ws acc = some acc := by
  induction ws generalizing acc with
  | nil => rfl
  | cons w t ih =>
    obtain ⟨c, d, h⟩ := acc
    obtain ⟨h1, h2, h3⟩ := hw w (by simp)
    simp only [parseDistLoop, h1, h2, h3, Bool.false_eq_true, if_false]
    exact ih _ (fun w' hw' => hw w' (by simp [hw']))

/-- C5 counterexample: the bare-number input "100 60 40" sums to the stored
diff 200, yet it parses as the all-zero triple and is rejected with the
sum-mismatch reply; the numbers are never assigned to the categories. -/
theorem C5_counterexample :
    (100 + 60 + 40 : ℚ) = ((200 : ℤ) : ℚ) ∧
    parseDist "100 60 40" = some (0, 0, 0) ∧
    handleDistribution OWNER_ID "100 60 40" store200 =
      ⟨.distributionW, store200, [], .sumMismatch⟩ := by
  have hr : parseDistRep (lowerL "100 60 40".data) = some (zeroRep, zeroRep, zeroRep) := by
    decide
  have h0 : digitsVal ['0'] = 0 := by decide
  have hv0 : digitsVal [] = 0 := by decide
  have hq : parseDist "100 60 40" = some (0, 0, 0) := by
    simp [parseDist, hr, DecRep.toQ, zeroRep, h0, hv0]
  have hs : storeGet store200 OWNER_ID = some ⟨53200, 200, none⟩ := by decide
  refine ⟨by norm_num, hq, ?_⟩
  norm_num [handleDistribution, hs, hq]

/-- C5 (amended): a distribution message without category keywords always
parses as the all-zero triple, and whenever the stored diff exceeds 1 it is
rejected with the sum-mismatch reply, leaving the store unchanged; the bare
numbers are never assigned to the categories. -/
theorem C5_amended (raw : String) (store : Store) (data : UserData)
    (hk : noKeyword raw = true)
    (hs : storeGet store OWNER_ID = some data)
    (hd : 1 < data.diff) :
    parseDist raw = some (0, 0, 0) ∧
    handleDistribution OWNER_ID raw store = ⟨.distributionW, store, [], .sumMismatch⟩ := by
  have hp : parseDistRep (lowerL raw.data) = some (zeroRep, zeroRep, zeroRep) := by
    unfold parseDistRep
    apply parseDistLoop_no_keyword
    intro w hw
    have hall := List.all_eq_true.mp hk w hw
    simp only [Bool.and_eq_true, Bool.not_eq_true'] at hall
    exact ⟨hall.1.1, hall.1.2, hall.2⟩
  have h0 : digitsVal ['0'] = 0 := by decide
  have hv0 : digitsVal [] = 0 := by decide
  have hq : parseDist raw = some (0, 0, 0) := by
    simp [parseDist, hp, DecRep.toQ, zeroRep, h0, hv0]
  have hdq : (1 : ℚ) < (data.diff : ℚ) := by exact_mod_cast hd
  have habs : 1 < |(data.diff : ℚ)| := lt_of_lt_of_le hdq (le_abs_self _)
  refine ⟨hq, ?_⟩
  simp [handleDistribution, hs, hq, habs]

/-- Witness for C5 at the bare input "100 60 40" with diff 200. -/
theorem C5_witness :
    noKeyword "100 60 40" = true ∧ (1 : ℤ) < 200 ∧
    parseDist "100 60 40" = some (0, 0, 0) :=
  ⟨by decide, by decide,
    (C5_amended "100 60 40" store200 ⟨53200, 200, none⟩ (by decide) (by decide) (by decide)).1⟩

/-! ### C8: stored per-category values -/

/-- C8 counterexample: the labeled input with a negative city value parses
successfully, sums to the stored diff, is accepted, and the negative value
-50 is stored as the city kilometres — refuting non-negativity. -/
theorem C8_counterexample :
    parseDist "місто -50 район 150 траса 100" = some (-50, 150, 100) ∧
    storedCityKm (handleDistribution OWNER_ID "місто -50 район 150 траса 100" store200)
      OWNER_ID = some (-50) ∧
    ((-50 : ℚ) < 0) := by
  have hs : storeGet store200 OWNER_ID = some ⟨53200, 200, none⟩ := by decide
  refine ⟨parse_neg50, ?_, by norm_num⟩
  norm_num [storedCityKm, handleDistribution, hs, parse_neg50, storeGet_storeSet, distOf]

/-- C8 (amended): after an accepted distribution parse the stored
per-category kilometre values are exactly the parsed rational values (not
necessarily non-negative integers), constrained only by the sum check. -/
theorem C8_amended (raw : String) (store : Store) (data : UserData) (c d h : ℚ)
    (hs : storeGet store OWNER_ID = some data)
    (hp : parseDist raw = some (c, d, h))
    (hsum : |c + d + h - (data.diff : ℚ)| ≤ 1) :
    storedKms (handleDistribution OWNER_ID raw store) OWNER_ID = some (c, d, h) := by
  have hc : ¬ 1 < |c + d + h - (data.diff : ℚ)| := not_lt.mpr hsum
  simp [storedKms, handleDistribution, hs, hp, hc, storeGet_storeSet, distOf]

/-- Witness for C8 at the accepted input with a negative city value. -/
theorem C8_witness :
    |(-50 : ℚ) + 150 + 100 - (((200 : ℤ) : ℚ))| ≤ 1 ∧
    storedKms (handleDistribution OWNER_ID "місто -50 район 150 траса 100" store200)
      OWNER_ID = some (-50, 150, 100) :=
  ⟨by norm_num,
    C8_amended "місто -50 район 150 траса 100" store200 ⟨53200, 200, none⟩ (-50) 150 100
      (by decide) parse_neg50 (by norm_num)⟩

/-! ### C2: the example-scenario computation -/

/-- C2 counterexample: the exact litre values are as claimed, but the
"rounded" total the code computes is the integer `round(22.438) = 22`, not
22.44 (two-decimal rounding). -/
theorem C2_counterexample :
    (calcFn 11.66 100).1 = 11.66 ∧ (calcFn 11.17 60).1 = 6.702 ∧
    (calcFn 10.19 40).1 = 4.076 ∧
    pyRound ((calcFn 11.66 100).1 + (calcFn 11.17 60).1 + (calcFn 10.19 40).1) 4 = 22.438 ∧
    pyRoundInt
      (pyRound ((calcFn 11.66 100).1 + (calcFn 11.17 60).1 + (calcFn 10.19 40).1) 4) = 22 ∧
    ((22 : ℚ) ≠ 22.44) := by
  norm_num [calcFn, pyRound, pyRoundInt]

/-- C2 (amended): running the distribution handler on the example scenario
(city=100, district=60, highway=40 over diff 200) stores exactly
city_exact=11.66, district_exact=6.702, highway_exact=4.076,
total_exact=22.438 and the integer-rounded values 12, 7, 4 and 22. -/
theorem C2_amended :
    storedDist (handleDistribution OWNER_ID "місто 100 район 60 траса 40" store200)
      OWNER_ID = some dd4 := by
  have hs : storeGet store200 OWNER_ID = some ⟨53200, 200, none⟩ := by decide
  norm_num [storedDist, handleDistribution, hs, parse_100_60_40, storeGet_storeSet, dd4,
    calcFn, pyRound, pyRoundInt]

/-! ### C4: confirmation row build, append and formatting -/

/-- C4 (code bug witness): on confirm the code builds the 14-field row in the
claimed order and appends it, but the cell range it formats is row
`len(sheet_cache)` — computed from the cache as it was before the append —
while the newly appended row lands at index `len(sheet_cache) + 1`: the
formatting is applied to the previous last row, not the new one. -/
theorem C4_format_bug :
    buildRow "12.10.2025" data4 =
      [Cell.str "12.10.2025", Cell.int 53200, Cell.int 200,
       Cell.int 100, Cell.dec 11.66, Cell.int 12,
       Cell.int 60, Cell.dec 6.702, Cell.int 7,
       Cell.int 40, Cell.dec 4.076, Cell.int 4,
       Cell.dec 22.438, Cell.int 22] ∧
    (buildRow "12.10.2025" data4).length = 14 ∧
    handleConfirmation OWNER_ID "confirm_yes" "12.10.2025" store4 cache2 true =
      ⟨.ended, [], [.appendRow (buildRow "12.10.2025" data4), .formatRowRange 2 14], .saved⟩ ∧
    cache2.length + 1 = 3 ∧ (2 : ℕ) ≠ 3 := by
  have hcb : ¬ (("confirm_yes" : String) = "confirm_no" ∨ ("confirm_yes" : String) = "cancel") := by
    decide
  have hs : storeGet store4 OWNER_ID = some data4 := by
    simp [storeGet, store4, List.find?]
  refine ⟨?_, ?_, ?_, by decide, by decide⟩
  · norm_num [buildRow, distOf, data4, dd4, pyTrunc]
  · norm_num [buildRow]
  · have hs2 : storeGet [(OWNER_ID, data4)] OWNER_ID = some data4 := hs
    simp [handleConfirmation, hcb, hs2, storePop, store4, cache2, headerRow, prevRow]

/-! ### C9: the report action versus the spec's monthly report -/

/-- C9 counterexample: on a six-row cache whose data rows are all dated
January 2024, the report action displays the last five rows — independent of
any current-month filter and with no summation — while the spec's monthly
selection for the month string "2025-10" is empty. -/
theorem C9_counterexample :
    handleButton OWNER_ID "report" [] cache6 =
      some ⟨.noRet, [], [], .reportText (cache6.drop 1)⟩ ∧
    monthRowsSpec "2025-10" cache6 = [] ∧
    cache6.drop 1 ≠ [] := by decide

/-- C9 (amended): on a non-empty cache each of whose displayed rows has the
5 columns the formatter reads, the report action mutates nothing and displays
the suffix of the cached ledger consisting of its last `min 5 length` rows,
with no month filtering and no sum; a displayed row with fewer than 5 cells
crashes the handler with no reply; on an empty cache (any store) it shows the
empty-table message. -/
theorem C9_amended (store : Store) (cache : List Row) (h : cache ≠ [])
    (hrows : ∀ r ∈ cache.drop (cache.length - 5), 5 ≤ r.length) :
    handleButton OWNER_ID "report" store cache =
      some ⟨.noRet, store, [], .reportText (cache.drop (cache.length - 5))⟩ ∧
    (cache.drop (cache.length - 5)).length = min 5 cache.length ∧
    cache.drop (cache.length - 5) <:+ cache ∧
    handleButton OWNER_ID "report" store [] = some ⟨.noRet, store, [], .emptyTable⟩ := by
  have hall : (cache.drop (cache.length - 5)).all (fun r => decide (5 ≤ r.length)) = true := by
    rw [List.all_eq_true]
    intro r hr
    simpa using hrows r hr
  refine ⟨by simp [handleButton, h, hall], ?_, List.drop_suffix _ _, by simp [handleButton]⟩
  simp only [List.length_drop]
  omega

/-- Witness for C9 on the six-row cache (whose five displayed rows all have
14 cells). -/
theorem C9_witness :
    cache6 ≠ ([] : List Row) ∧
    (∀ r ∈ cache6.drop (cache6.length - 5), 5 ≤ r.length) ∧
    handleButton OWNER_ID "report" [] cache6 =
      some ⟨.noRet, [], [], .reportText (cache6.drop (cache6.length - 5))⟩ :=
  ⟨by decide, by decide, (C9_amended [] cache6 (by decide) (by decide)).1⟩

/-- Sanity check that the model's report branch reproduces the `IndexError`
crash: a header-only cache is non-empty, but its single displayed row has
only 3 cells, so the handler crashes with no reply. -/
theorem handleButton_report_short_row :
    handleButton OWNER_ID "report" [] [headerRow] = none := by decide

end CarBot
